import Mathlib

/-!
# Verification of the decky quest-helper plugin backend

Shallow embedding of the Python backend in `src/main.py` of the
decky-chatgpt-questhelper repository.  The plugin exposes a credential
store (`set_api_key` / `get_api_key` over a JSON settings file), a
screenshot locator with an X11 fallback (`capture_screenshot`), an image
normalizer (PIL thumbnail + JPEG re-encode + base64), and the quest-help
request flow (`get_quest_help`, `request_quest_help`).

Modelling conventions:
  * filesystem and network effects are passed in explicitly
    (directory contents, subprocess outcome, remote-call outcome);
  * a base64 payload string is modelled by the structure `Encoded`
    recording the data it encodes, with `none` standing for the empty
    string returned on failure;
  * the external libraries (PIL, subprocess) are modelled faithfully at
    the granularity the code uses them: the `thumbnail` size arithmetic
    follows the PIL implementation with exact rationals in place of
    Python floats, pixel resampling is abstracted as payload-preserving;
  * modification times are naturals (epoch seconds).
-/

namespace QuestHelper

/-- A decoded raster image: pixel dimensions plus an abstract payload
standing for the pixel data. -/
structure Img where
  width : ℕ
  height : ℕ
  data : String
  deriving DecidableEq

/-- Modelled from the external PIL call `img.thumbnail(...)` used at
src/main.py lines 93-94 and 124-125: PIL picks between the floor and the
ceiling of the rescaled dimension by whichever the key function ranks
lower (the floor on ties), then clamps the result to at least 1. -/
def round_aspect (number : ℚ) (key : ℤ → ℚ) : ℤ :=
  max (if key ⌊number⌋ ≤ key ⌈number⌉ then ⌊number⌋ else ⌈number⌉) 1

/-- The size computation of PIL `thumbnail` with bound `(1024, 1024)`
(`max_size` at src/main.py line 93): no change when both dimensions fit,
otherwise rescale the larger dimension to 1024 and round the other to
keep the aspect ratio.  Exact rationals stand for Python floats. -/
def thumbnailSize (w h : ℕ) : ℕ × ℕ :=
  if w ≤ 1024 ∧ h ≤ 1024 then (w, h)
  else
    let aspect : ℚ := (w : ℚ) / (h : ℚ)
    if aspect ≤ 1 then
      ((round_aspect (1024 * aspect) (fun n => |aspect - (n : ℚ) / 1024|)).toNat, 1024)
    else
      (1024,
        (round_aspect (1024 / aspect)
          (fun n => if n = 0 then 0 else |aspect - 1024 / (n : ℚ)|)).toNat)

/-- The in-place resize performed by `img.thumbnail(max_size, LANCZOS)`:
dimensions from `thumbnailSize`, pixel resampling abstracted as keeping
the payload. -/
def thumbnailImg (i : Img) : Img :=
  ⟨(thumbnailSize i.width i.height).1, (thumbnailSize i.width i.height).2, i.data⟩

/-- A base64 text payload produced by the normalizer, recording what it
encodes: the format and quality passed to `img.save` and the resized
image.  Decoding a value recovers `img`. -/
structure Encoded where
  format : String
  quality : ℕ
  img : Img
  deriving DecidableEq

/-- src/main.py lines 91-100 and 123-130: thumbnail to at most 1024 in
either dimension, save as JPEG at quality 85, base64-encode. -/
def encodeImg (i : Img) : Encoded :=
  ⟨"JPEG", 85, thumbnailImg i⟩

/-- A file found by the recursive directory scan: its path, its
modification time (`st_mtime`, epoch seconds) and its decoded content. -/
structure FileEntry where
  path : String
  mtime : ℕ
  content : Img
  deriving DecidableEq

/-- Loop body of src/main.py lines 83-87: keep the file whose mtime is
strictly above the running latest time. -/
def scanStep (acc : Option FileEntry × ℕ) (f : FileEntry) : Option FileEntry × ℕ :=
  if acc.2 < f.mtime then (some f, f.mtime) else acc

/-- src/main.py lines 78-87: `latest_screenshot = None`,
`latest_time = 0`, then fold the scan over every candidate file. -/
def selectLatest (files : List FileEntry) : Option FileEntry :=
  (files.foldl scanStep (none, 0)).1

/-- The `rglob("*.jpg")` pattern at src/main.py line 83: of the files a
directory contains (recursively), only names ending in `.jpg` are
scanned. -/
def jpgScan (dir : List FileEntry) : List FileEntry :=
  dir.filter (fun f => List.isSuffixOf ".jpg".data f.path.data)

/-- The environment of the fallback subprocess at src/main.py
lines 115-120: whether the external capture tool exists, how long the
run takes, and the exit code and captured bytes when it completes. -/
structure SubprocessEnv where
  toolPresent : Bool
  duration : ℕ
  returncode : ℤ
  stdout : Img
  deriving DecidableEq

/-- Models `subprocess.run([...], capture_output=True, timeout=5)`:
raises when the executable is missing or when the run exceeds the
5-unit timeout, otherwise completes with an exit code and output. -/
def runImport (e : SubprocessEnv) : Except String (ℤ × Img) :=
  if e.toolPresent = false then Except.error "FileNotFoundError"
  else if 5 < e.duration then Except.error "TimeoutExpired"
  else Except.ok (e.returncode, e.stdout)

/-- src/main.py lines 68-140, `Plugin.capture_screenshot`.  Each element
of `dirs` is the recursive file listing of one candidate directory, in
scan order.  Returns `none` for the empty-string failure result.  If the
scan finds a newest `.jpg` file it is normalized and returned; otherwise
the fallback subprocess runs: any exception is caught (returning the
empty result) and only a zero exit code yields a capture. -/
def capture_screenshot (dirs : List (List FileEntry)) (env : SubprocessEnv) :
    Option Encoded :=
  match selectLatest ((dirs.map jpgScan).flatten) with
  | some f => some (encodeImg f.content)
  | none =>
    match runImport env with
    | Except.error _ => none
    | Except.ok (rc, out) => if rc = 0 then some (encodeImg out) else none

/-- The state of the settings file read and written by the credential
store: absent, unreadable or malformed (any state whose read raises,
caught at src/main.py line 64), or a parsed JSON object of string
fields. -/
inductive SettingsFile
  | absent
  | corrupt
  | stored (fields : List (String × String))
  deriving DecidableEq

/-- src/main.py lines 55-66, `Plugin.get_api_key`: read the settings
file and return its `api_key` field, returning the empty string when
the file is absent, when the field is absent, or when any exception is
raised (caught and logged). -/
def get_api_key : SettingsFile → String
  | SettingsFile.absent => ""
  | SettingsFile.corrupt => ""
  | SettingsFile.stored fs => (fs.lookup "api_key").getD ""

/-- The mutable plugin state touched by the credential store: the
in-memory key, the in-memory client handle (recorded by the key it was
constructed with), and the settings file. -/
structure PluginState where
  api_key : Option String
  openai_client : Option String
  settings : SettingsFile
  deriving DecidableEq

/-- src/main.py lines 35-53, `Plugin.set_api_key`: assign the in-memory
key, construct the new client handle, then attempt the settings-file
write (`writeOk` says whether the filesystem write succeeds).  On write
failure the exception is caught, `false` is returned, and the file keeps
its old contents while the in-memory fields already hold the new key. -/
def set_api_key (st : PluginState) (k : String) (writeOk : Bool) :
    PluginState × Bool :=
  if writeOk then
    (⟨some k, some k, SettingsFile.stored [("api_key", k)]⟩, true)
  else
    (⟨some k, some k, st.settings⟩, false)

/-- The outcome of the remote chat-completion call at src/main.py
lines 184-188: it raises, or it responds with the first choice text. -/
inductive RemoteOutcome
  | raises (msg : String)
  | responds (text : String)
  deriving DecidableEq

/-- The structured outcome dict returned by the quest-help operations:
`{success: True, help_text}` or `{success: False, error}`. -/
inductive HelpResult
  | ok (help_text : String)
  | err (error : String)
  deriving DecidableEq

/-- src/main.py lines 145-155: if no client exists, lazily hydrate it
from the stored key; an empty stored key yields no client. -/
def hydrateClient (client : Option String) (settings : SettingsFile) :
    Option String :=
  match client with
  | some c => some c
  | none =>
    let k := get_api_key settings
    if k = "" then none else some k

/-- src/main.py lines 142-203, `Plugin.get_quest_help`.  Returns the
result, whether the remote call was attempted, and the client handle
after hydration.  The credential check comes first, then the
empty-screenshot check, then the remote call whose exception is caught
and stringified into the error field. -/
def get_quest_help (client : Option String) (settings : SettingsFile)
    (shot : Option Encoded) (remote : RemoteOutcome) :
    HelpResult × Bool × Option String :=
  match hydrateClient client settings with
  | none =>
    (HelpResult.err "OpenAI API key not configured. Please set your API key first.",
      false, client)
  | some c =>
    match shot with
    | none =>
      (HelpResult.err "No screenshot available. Please take a screenshot first.",
        false, some c)
    | some _ =>
      match remote with
      | RemoteOutcome.raises m =>
        (HelpResult.err ("Failed to get help from AI: " ++ m), true, some c)
      | RemoteOutcome.responds t => (HelpResult.ok t, true, some c)

/-- The observable side effects of one `request_quest_help` run. -/
inductive Effect
  | captureShot
  | remoteCall
  deriving DecidableEq

/-- src/main.py lines 205-227, `Plugin.request_quest_help`: capture the
screenshot first; if it is empty return the screenshot failure, else
delegate to `get_quest_help`.  The effect list records what was
attempted, in order. -/
def request_quest_help (client : Option String) (settings : SettingsFile)
    (dirs : List (List FileEntry)) (env : SubprocessEnv)
    (remote : RemoteOutcome) : HelpResult × List Effect :=
  match capture_screenshot dirs env with
  | none =>
    (HelpResult.err
      "Failed to capture screenshot. Please ensure you have taken a screenshot recently.",
      [Effect.captureShot])
  | some s =>
    let r := get_quest_help client settings (some s) remote
    (r.1, Effect.captureShot :: (if r.2.1 then [Effect.remoteCall] else []))

/-! ## Credential store claims -/

/-- C2: for every credential string k, set_api_key k followed by
get_api_key returns k, and on a fresh store (no settings file) with no
prior set call, get_api_key returns the empty string. -/
theorem C2_set_get_roundtrip (st : PluginState) (k : String) :
    get_api_key ((set_api_key st k true).1).settings = k ∧
    get_api_key SettingsFile.absent = "" := by
  refine ⟨?_, rfl⟩
  simp [set_api_key, get_api_key, List.lookup]

/-- C8: when the settings file is absent, unreadable or malformed,
get_api_key returns the empty string; the embedding is a total function,
so no exception reaches the caller. -/
theorem C8_get_api_key_safe :
    get_api_key SettingsFile.absent = "" ∧
    get_api_key SettingsFile.corrupt = "" :=
  ⟨rfl, rfl⟩

/-- C9: set_api_key is not atomic with respect to failure: when the
settings-file write fails it returns false, yet the in-memory api_key
and openai_client already hold the new credential while the settings
file keeps its old contents, so memory and disk diverge. -/
theorem C9_set_api_key_not_atomic (st : PluginState) (k : String) :
    (set_api_key st k false).2 = false ∧
    ((set_api_key st k false).1).api_key = some k ∧
    ((set_api_key st k false).1).openai_client = some k ∧
    ((set_api_key st k false).1).settings = st.settings := by
  simp [set_api_key]

/-! ## Quest-help flow claims -/

/-- C5: whenever the remote chat-completion call raises, get_quest_help
catches the exception and returns a failure result whose error string
contains the stringified exception text; the embedding is a total
function, so the exception is never propagated. -/
theorem C5_remote_error_caught (client : Option String)
    (settings : SettingsFile) (s : Encoded) (m : String)
    (h : hydrateClient client settings ≠ none) :
    (get_quest_help client settings (some s) (RemoteOutcome.raises m)).1 =
      HelpResult.err ("Failed to get help from AI: " ++ m) ∧
    ∃ p q : String, "Failed to get help from AI: " ++ m = p ++ m ++ q := by
  cases hc : hydrateClient client settings with
  | none => exact absurd hc h
  | some c =>
    refine ⟨?_, "Failed to get help from AI: ", "", by simp⟩
    simp [get_quest_help, hc]

/-- Witness for C5 at a concrete run. -/
theorem C5_remote_error_caught_witness :
    (get_quest_help (some "sk-test") SettingsFile.absent
        (some ⟨"JPEG", 85, ⟨1, 1, "x"⟩⟩) (RemoteOutcome.raises "boom")).1 =
      HelpResult.err ("Failed to get help from AI: " ++ "boom") ∧
    ∃ p q : String, "Failed to get help from AI: " ++ "boom" = p ++ "boom" ++ q :=
  C5_remote_error_caught (some "sk-test") SettingsFile.absent
    ⟨"JPEG", 85, ⟨1, 1, "x"⟩⟩ "boom" (by simp [hydrateClient])

/-- C6: when the screenshot locator yields the empty result,
request_quest_help returns the screenshot failure message and the remote
call is never attempted. -/
theorem C6_no_screenshot_no_remote (client : Option String)
    (settings : SettingsFile) (dirs : List (List FileEntry))
    (env : SubprocessEnv) (remote : RemoteOutcome)
    (h : capture_screenshot dirs env = none) :
    (request_quest_help client settings dirs env remote).1 =
      HelpResult.err
        "Failed to capture screenshot. Please ensure you have taken a screenshot recently." ∧
    Effect.remoteCall ∉ (request_quest_help client settings dirs env remote).2 := by
  simp [request_quest_help, h]

/-- Witness for C6 at a concrete run: no candidate files, capture tool
missing. -/
theorem C6_no_screenshot_no_remote_witness :
    (request_quest_help none SettingsFile.absent [] ⟨false, 0, 0, ⟨1, 1, "z"⟩⟩
        (RemoteOutcome.raises "x")).1 =
      HelpResult.err
        "Failed to capture screenshot. Please ensure you have taken a screenshot recently." ∧
    Effect.remoteCall ∉ (request_quest_help none SettingsFile.absent []
        ⟨false, 0, 0, ⟨1, 1, "z"⟩⟩ (RemoteOutcome.raises "x")).2 :=
  C6_no_screenshot_no_remote none SettingsFile.absent []
    ⟨false, 0, 0, ⟨1, 1, "z"⟩⟩ (RemoteOutcome.raises "x") rfl

/-- C1 counterexample: in a state with no configured API key (no
in-memory client, no settings file) where the scan finds nothing and the
fallback tool is missing, request_quest_help returns the screenshot
failure, not the credential failure — the credential check does not
precede screenshot acquisition in request_quest_help. -/
theorem C1_counterexample :
    get_api_key SettingsFile.absent = "" ∧
    (request_quest_help none SettingsFile.absent []
        ⟨false, 0, 0, ⟨1, 1, "z"⟩⟩ (RemoteOutcome.raises "x")).1 ≠
      HelpResult.err "OpenAI API key not configured. Please set your API key first." := by
  refine ⟨rfl, ?_⟩
  decide

/-- C1 amended: in request_quest_help the screenshot capture comes
first.  For every state with no configured API key, the capture is
always performed, the remote call never is, and the result is the
screenshot failure when the capture is empty and the credential failure
(only after the capture succeeded) otherwise. -/
theorem C1_amended_capture_precedes_credential (settings : SettingsFile)
    (dirs : List (List FileEntry)) (env : SubprocessEnv)
    (remote : RemoteOutcome) (hnokey : get_api_key settings = "") :
    Effect.captureShot ∈ (request_quest_help none settings dirs env remote).2 ∧
    Effect.remoteCall ∉ (request_quest_help none settings dirs env remote).2 ∧
    (capture_screenshot dirs env = none →
      (request_quest_help none settings dirs env remote).1 =
        HelpResult.err
          "Failed to capture screenshot. Please ensure you have taken a screenshot recently.") ∧
    (∀ s, capture_screenshot dirs env = some s →
      (request_quest_help none settings dirs env remote).1 =
        HelpResult.err "OpenAI API key not configured. Please set your API key first.") := by
  cases hc : capture_screenshot dirs env with
  | none => simp [request_quest_help, hc]
  | some s =>
    simp [request_quest_help, hc, get_quest_help, hydrateClient, hnokey]

/-- Witness for the amended C1 at a concrete run with a screenshot
available and no key configured. -/
theorem C1_amended_witness :
    Effect.captureShot ∈ (request_quest_help none SettingsFile.absent
        [[⟨"shot.jpg", 7, ⟨2, 2, "p"⟩⟩]] ⟨true, 0, 0, ⟨1, 1, "z"⟩⟩
        (RemoteOutcome.responds "hi")).2 ∧
    Effect.remoteCall ∉ (request_quest_help none SettingsFile.absent
        [[⟨"shot.jpg", 7, ⟨2, 2, "p"⟩⟩]] ⟨true, 0, 0, ⟨1, 1, "z"⟩⟩
        (RemoteOutcome.responds "hi")).2 ∧
    (capture_screenshot [[⟨"shot.jpg", 7, ⟨2, 2, "p"⟩⟩]]
        ⟨true, 0, 0, ⟨1, 1, "z"⟩⟩ = none →
      (request_quest_help none SettingsFile.absent
          [[⟨"shot.jpg", 7, ⟨2, 2, "p"⟩⟩]] ⟨true, 0, 0, ⟨1, 1, "z"⟩⟩
          (RemoteOutcome.responds "hi")).1 =
        HelpResult.err
          "Failed to capture screenshot. Please ensure you have taken a screenshot recently.") ∧
    (∀ s, capture_screenshot [[⟨"shot.jpg", 7, ⟨2, 2, "p"⟩⟩]]
        ⟨true, 0, 0, ⟨1, 1, "z"⟩⟩ = some s →
      (request_quest_help none SettingsFile.absent
          [[⟨"shot.jpg", 7, ⟨2, 2, "p"⟩⟩]] ⟨true, 0, 0, ⟨1, 1, "z"⟩⟩
          (RemoteOutcome.responds "hi")).1 =
        HelpResult.err "OpenAI API key not configured. Please set your API key first.") :=
  C1_amended_capture_precedes_credential SettingsFile.absent
    [[⟨"shot.jpg", 7, ⟨2, 2, "p"⟩⟩]] ⟨true, 0, 0, ⟨1, 1, "z"⟩⟩
    (RemoteOutcome.responds "hi") rfl

/-! ## Screenshot locator claims -/

theorem foldl_scanStep_stable (L : List FileEntry) (a : Option FileEntry)
    (t : ℕ) (h : ∀ g ∈ L, g.mtime ≤ t) :
    L.foldl scanStep (a, t) = (a, t) := by
  induction L with
  | nil => rfl
  | cons x xs ih =>
    have hx : x.mtime ≤ t := h x (List.mem_cons_self x xs)
    have : scanStep (a, t) x = (a, t) := by
      simp [scanStep, Nat.not_lt.mpr hx]
    rw [List.foldl_cons, this]
    exact ih (fun g hg => h g (List.mem_cons_of_mem x hg))

theorem foldl_scanStep_max (L : List FileEntry) (f : FileEntry) :
    ∀ (a : Option FileEntry) (t : ℕ), f ∈ L →
    (∀ g ∈ L, g = f ∨ g.mtime < f.mtime) → t < f.mtime →
    L.foldl scanStep (a, t) = (some f, f.mtime) := by
  induction L with
  | nil => intro a t hmem; exact absurd hmem (List.not_mem_nil f)
  | cons x xs ih =>
    intro a t hmem hmax ht
    by_cases hx : x = f
    · subst hx
      have hstep : scanStep (a, t) x = (some x, x.mtime) := by
        simp [scanStep, ht]
      rw [List.foldl_cons, hstep]
      exact foldl_scanStep_stable xs (some x) x.mtime
        (fun g hg => by
          rcases hmax g (List.mem_cons_of_mem x hg) with h | h
          · exact h ▸ le_refl _
          · exact le_of_lt h)
    · have hxlt : x.mtime < f.mtime := by
        rcases hmax x (List.mem_cons_self x xs) with h | h
        · exact absurd h hx
        · exact h
      have hfxs : f ∈ xs := by
        rcases List.mem_cons.mp hmem with h | h
        · exact absurd h.symm hx
        · exact h
      have hmax2 : ∀ g ∈ xs, g = f ∨ g.mtime < f.mtime :=
        fun g hg => hmax g (List.mem_cons_of_mem x hg)
      rw [List.foldl_cons]
      unfold scanStep
      by_cases hcmp : t < x.mtime
      · simp only [hcmp, if_pos]
        exact ih (some x) x.mtime hfxs hmax2 hxlt
      · simp only [hcmp, if_neg, not_false_eq_true]
        exact ih a t hfxs hmax2 ht

theorem foldl_scanStep_mem (L : List FileEntry) (f : FileEntry) :
    ∀ (a : Option FileEntry) (t : ℕ),
    (L.foldl scanStep (a, t)).1 = some f → a = some f ∨ f ∈ L := by
  induction L with
  | nil => intro a t h; exact Or.inl h
  | cons x xs ih =>
    intro a t h
    rw [List.foldl_cons] at h
    unfold scanStep at h
    by_cases hcmp : t < x.mtime
    · simp only [hcmp, if_pos] at h
      rcases ih (some x) x.mtime h with h2 | h2
      · exact Or.inr (List.mem_cons.mpr (Or.inl (Option.some.inj h2).symm))
      · exact Or.inr (List.mem_cons_of_mem x h2)
    · simp only [hcmp, if_neg, not_false_eq_true] at h
      rcases ih a t h with h2 | h2
      · exact Or.inl h2
      · exact Or.inr (List.mem_cons_of_mem x h2)

/-- C3: when the jpg files found across the candidate directories have
distinct modification times (expressed as: f is the strictly newest of
them) and positive timestamps, capture_screenshot returns the normalized
content of exactly that newest file, scanning all directories combined.
-/
theorem C3_newest_file_selected (dirs : List (List FileEntry))
    (env : SubprocessEnv) (f : FileEntry)
    (hmem : f ∈ (dirs.map jpgScan).flatten) (hpos : 0 < f.mtime)
    (hmax : ∀ g ∈ (dirs.map jpgScan).flatten, g = f ∨ g.mtime < f.mtime) :
    capture_screenshot dirs env = some (encodeImg f.content) := by
  have hsel : selectLatest ((dirs.map jpgScan).flatten) = some f := by
    unfold selectLatest
    rw [foldl_scanStep_max ((dirs.map jpgScan).flatten) f none 0 hmem hmax hpos]
  unfold capture_screenshot
  rw [hsel]

/-- Witness for C3: two candidate directories, the second holding the
newer file. -/
theorem C3_newest_file_selected_witness :
    capture_screenshot
      [[⟨"a.jpg", 3, ⟨10, 20, "A"⟩⟩], [⟨"b.jpg", 9, ⟨30, 40, "B"⟩⟩]]
      ⟨true, 0, 0, ⟨1, 1, "Z"⟩⟩ =
      some (encodeImg ⟨30, 40, "B"⟩) :=
  C3_newest_file_selected
    [[⟨"a.jpg", 3, ⟨10, 20, "A"⟩⟩], [⟨"b.jpg", 9, ⟨30, 40, "B"⟩⟩]]
    ⟨true, 0, 0, ⟨1, 1, "Z"⟩⟩ ⟨"b.jpg", 9, ⟨30, 40, "B"⟩⟩
    (by decide) (by decide) (by decide)

/-- C7: when no candidate directory contains a file matching the .jpg
pattern and the fallback capture fails (tool missing, run beyond the
5-unit timeout, or non-zero exit code), capture_screenshot returns the
empty result rather than raising. -/
theorem C7_fallback_failure_empty (dirs : List (List FileEntry))
    (env : SubprocessEnv)
    (hnomatch : ∀ d ∈ dirs, ∀ f ∈ d,
      List.isSuffixOf ".jpg".data f.path.data = false)
    (hfail : env.toolPresent = false ∨ 5 < env.duration ∨ env.returncode ≠ 0) :
    capture_screenshot dirs env = none := by
  have hscan : ∀ d ∈ dirs, jpgScan d = [] := by
    intro d hd
    unfold jpgScan
    rw [List.filter_eq_nil_iff]
    intro f hf
    simp [hnomatch d hd f hf]
  have hflat : (dirs.map jpgScan).flatten = [] := by
    rw [List.flatten_eq_nil_iff]
    intro l hl
    rcases List.mem_map.mp hl with ⟨d, hd, rfl⟩
    exact hscan d hd
  unfold capture_screenshot
  rw [hflat]
  have hsel : selectLatest ([] : List FileEntry) = none := rfl
  rw [hsel]
  unfold runImport
  rcases hfail with h | h | h
  · simp [h]
  · rcases hb : env.toolPresent with _ | _
    · simp
    · simp [h]
  · rcases hb : env.toolPresent with _ | _
    · simp
    · by_cases hd : 5 < env.duration
      · simp [hd]
      · simp [hd, h]

/-- Witness for C7: one directory holding only a png file, fallback run
exceeding the timeout. -/
theorem C7_fallback_failure_empty_witness :
    capture_screenshot [[⟨"a.png", 7, ⟨10, 20, "A"⟩⟩]]
      ⟨true, 9, 0, ⟨1, 1, "Z"⟩⟩ = none :=
  C7_fallback_failure_empty [[⟨"a.png", 7, ⟨10, 20, "A"⟩⟩]]
    ⟨true, 9, 0, ⟨1, 1, "Z"⟩⟩ (by decide) (by decide)

/-- C10: the directory scan matches only names ending in .jpg: whatever
file the scan of the candidate directories selects has the .jpg suffix,
so a file with any other extension is never selected, however recent. -/
theorem C10_only_jpg_selected (dirs : List (List FileEntry)) (f : FileEntry)
    (h : selectLatest ((dirs.map jpgScan).flatten) = some f) :
    List.isSuffixOf ".jpg".data f.path.data = true := by
  unfold selectLatest at h
  rcases foldl_scanStep_mem ((dirs.map jpgScan).flatten) f none 0 h with h2 | h2
  · exact absurd h2 (by simp)
  · rcases List.mem_flatten.mp h2 with ⟨l, hl, hfl⟩
    rcases List.mem_map.mp hl with ⟨d, _, rfl⟩
    exact (List.mem_filter.mp hfl).2

/-- Witness for C10: a directory holding a jpg and a newer png; the
selected file is the jpg. -/
theorem C10_only_jpg_selected_witness :
    List.isSuffixOf ".jpg".data ("c.jpg" : String).data = true :=
  C10_only_jpg_selected
    [[⟨"c.jpg", 3, ⟨10, 20, "A"⟩⟩, ⟨"d.png", 9, ⟨30, 40, "B"⟩⟩]]
    ⟨"c.jpg", 3, ⟨10, 20, "A"⟩⟩ (by decide)

/-! ## Image normalizer claim -/

theorem round_aspect_cases (x : ℚ) (key : ℤ → ℚ) :
    round_aspect x key = max ⌊x⌋ 1 ∨ round_aspect x key = max ⌈x⌉ 1 := by
  unfold round_aspect
  by_cases h : key ⌊x⌋ ≤ key ⌈x⌉
  · exact Or.inl (by rw [if_pos h])
  · exact Or.inr (by rw [if_neg h])

theorem round_aspect_one_le (x : ℚ) (key : ℤ → ℚ) :
    1 ≤ round_aspect x key :=
  le_max_right _ _

theorem round_aspect_le (x : ℚ) (key : ℤ → ℚ) (n : ℤ)
    (h1 : ⌈x⌉ ≤ n) (h2 : 1 ≤ n) : round_aspect x key ≤ n := by
  rcases round_aspect_cases x key with h | h <;> rw [h]
  · exact max_le (le_trans (Int.floor_le_ceil x) h1) h2
  · exact max_le h1 h2

theorem round_aspect_close (x : ℚ) (key : ℤ → ℚ) (hx : 0 < x) :
    |((round_aspect x key : ℤ) : ℚ) - x| ≤ 1 := by
  have hfl : ((⌊x⌋ : ℤ) : ℚ) ≤ x := Int.floor_le x
  have hfl2 : x < ((⌊x⌋ : ℤ) : ℚ) + 1 := Int.lt_floor_add_one x
  have hcl : x ≤ ((⌈x⌉ : ℤ) : ℚ) := Int.le_ceil x
  have hcl2 : ((⌈x⌉ : ℤ) : ℚ) ≤ x + 1 := by
    have h := Int.ceil_le_floor_add_one x
    have h2 : ((⌈x⌉ : ℤ) : ℚ) ≤ ((⌊x⌋ : ℤ) : ℚ) + 1 := by exact_mod_cast h
    linarith
  rcases round_aspect_cases x key with h | h <;> rw [h]
  · rcases le_or_lt 1 ⌊x⌋ with h1 | h1
    · rw [max_eq_left h1, abs_le]
      constructor <;> linarith
    · rw [max_eq_right (le_of_lt h1)]
      have h0 : ⌊x⌋ ≤ 0 := by omega
      have h0q : ((⌊x⌋ : ℤ) : ℚ) ≤ 0 := by exact_mod_cast h0
      rw [abs_le]
      push_cast
      constructor <;> linarith
  · have h1 : 1 ≤ ⌈x⌉ := Int.ceil_pos.mpr hx
    rw [max_eq_left h1, abs_le]
    constructor <;> linarith

theorem thumbnailSize_spec (w h : ℕ) (hw : 0 < w) (hh : 0 < h)
    (hbig : 1024 < w ∨ 1024 < h) :
    (thumbnailSize w h).1 ≤ 1024 ∧ (thumbnailSize w h).2 ≤ 1024 ∧
    |((thumbnailSize w h).1 : ℚ) * (h : ℚ) -
        (w : ℚ) * ((thumbnailSize w h).2 : ℚ)| ≤ max (w : ℚ) (h : ℚ) := by
  have hcond : ¬ (w ≤ 1024 ∧ h ≤ 1024) := by
    rcases hbig with h1 | h1
    · exact fun hc => absurd hc.1 (not_le.mpr h1)
    · exact fun hc => absurd hc.2 (not_le.mpr h1)
  have hwq : (0 : ℚ) < (w : ℚ) := by exact_mod_cast hw
  have hhq : (0 : ℚ) < (h : ℚ) := by exact_mod_cast hh
  by_cases hasp : (w : ℚ) / (h : ℚ) ≤ 1
  · have hts : thumbnailSize w h =
        ((round_aspect (1024 * ((w : ℚ) / (h : ℚ)))
          (fun n => |(w : ℚ) / (h : ℚ) - (n : ℚ) / 1024|)).toNat, 1024) := by
      unfold thumbnailSize
      rw [if_neg hcond]
      simp only [if_pos hasp]
    rw [hts]
    set x : ℚ := 1024 * ((w : ℚ) / (h : ℚ)) with hxdef
    set r : ℤ := round_aspect x
      (fun n => |(w : ℚ) / (h : ℚ) - (n : ℚ) / 1024|) with hrdef
    have hxpos : 0 < x := by
      rw [hxdef]
      positivity
    have hxle : x ≤ 1024 := by
      rw [hxdef]
      nlinarith
    have h1r : (1 : ℤ) ≤ r := round_aspect_one_le x _
    have hrle : r ≤ 1024 :=
      round_aspect_le x _ 1024 (Int.ceil_le.mpr (by exact_mod_cast hxle))
        (by norm_num)
    have hclose : |((r : ℤ) : ℚ) - x| ≤ 1 := round_aspect_close x _ hxpos
    have hcast : ((r.toNat : ℕ) : ℚ) = ((r : ℤ) : ℚ) := by
      have := Int.toNat_of_nonneg (le_trans zero_le_one h1r)
      exact_mod_cast this
    refine ⟨Int.toNat_le.mpr hrle, by norm_num, ?_⟩
    show |((r.toNat : ℕ) : ℚ) * (h : ℚ) - (w : ℚ) * ((1024 : ℕ) : ℚ)| ≤ _
    rw [hcast]
    have hxh : x * (h : ℚ) = 1024 * (w : ℚ) := by
      rw [hxdef]
      field_simp
    have hsplit : ((r : ℤ) : ℚ) * (h : ℚ) - (w : ℚ) * ((1024 : ℕ) : ℚ) =
        (((r : ℤ) : ℚ) - x) * (h : ℚ) := by
      push_cast
      rw [sub_mul, hxh]
      ring
    rw [hsplit, abs_mul, abs_of_pos hhq]
    calc |((r : ℤ) : ℚ) - x| * (h : ℚ) ≤ 1 * (h : ℚ) :=
          mul_le_mul_of_nonneg_right hclose (le_of_lt hhq)
      _ = (h : ℚ) := one_mul _
      _ ≤ max (w : ℚ) (h : ℚ) := le_max_right _ _
  · have hts : thumbnailSize w h =
        (1024, (round_aspect (1024 / ((w : ℚ) / (h : ℚ)))
          (fun n => if n = 0 then 0
            else |(w : ℚ) / (h : ℚ) - 1024 / (n : ℚ)|)).toNat) := by
      unfold thumbnailSize
      rw [if_neg hcond]
      simp only [if_neg hasp]
    rw [hts]
    set x : ℚ := 1024 / ((w : ℚ) / (h : ℚ)) with hxdef
    set r : ℤ := round_aspect x
      (fun n => if n = 0 then 0
        else |(w : ℚ) / (h : ℚ) - 1024 / (n : ℚ)|) with hrdef
    have haspgt : 1 < (w : ℚ) / (h : ℚ) := lt_of_not_le hasp
    have hxval : x = 1024 * (h : ℚ) / (w : ℚ) := by
      rw [hxdef]
      field_simp
    have hxpos : 0 < x := by
      rw [hxval]
      positivity
    have hxle : x ≤ 1024 := by
      rw [hxval]
      rw [div_le_iff₀ hwq]
      nlinarith [(one_lt_div hhq).mp haspgt]
    have h1r : (1 : ℤ) ≤ r := round_aspect_one_le x _
    have hrle : r ≤ 1024 :=
      round_aspect_le x _ 1024 (Int.ceil_le.mpr (by exact_mod_cast hxle))
        (by norm_num)
    have hclose : |((r : ℤ) : ℚ) - x| ≤ 1 := round_aspect_close x _ hxpos
    have hcast : ((r.toNat : ℕ) : ℚ) = ((r : ℤ) : ℚ) := by
      have := Int.toNat_of_nonneg (le_trans zero_le_one h1r)
      exact_mod_cast this
    refine ⟨by norm_num, Int.toNat_le.mpr hrle, ?_⟩
    show |((1024 : ℕ) : ℚ) * (h : ℚ) - (w : ℚ) * ((r.toNat : ℕ) : ℚ)| ≤ _
    rw [hcast]
    have hxw : x * (w : ℚ) = 1024 * (h : ℚ) := by
      rw [hxval]
      field_simp
    have hsplit : ((1024 : ℕ) : ℚ) * (h : ℚ) - (w : ℚ) * ((r : ℤ) : ℚ) =
        (x - ((r : ℤ) : ℚ)) * (w : ℚ) := by
      push_cast
      rw [sub_mul, hxw]
      ring
    rw [hsplit, abs_mul, abs_of_pos hwq, abs_sub_comm]
    calc |((r : ℤ) : ℚ) - x| * (w : ℚ) ≤ 1 * (w : ℚ) :=
          mul_le_mul_of_nonneg_right hclose (le_of_lt hwq)
      _ = (w : ℚ) := one_mul _
      _ ≤ max (w : ℚ) (h : ℚ) := le_max_left _ _

/-- C4: for every image exceeding 1024 in either dimension, the
normalizer produces a base64 JPEG at quality 85 whose decoded width and
height are both at most 1024, with the aspect ratio preserved up to
rounding (the cross products of the old and new dimensions differ by at
most the larger original dimension, i.e. the rescaled side is within
one pixel of exact proportionality). -/
theorem C4_normalizer_bounds (i : Img) (hw : 0 < i.width)
    (hh : 0 < i.height) (hbig : 1024 < i.width ∨ 1024 < i.height) :
    (encodeImg i).format = "JPEG" ∧ (encodeImg i).quality = 85 ∧
    (encodeImg i).img.width ≤ 1024 ∧ (encodeImg i).img.height ≤ 1024 ∧
    |((encodeImg i).img.width : ℚ) * (i.height : ℚ) -
        (i.width : ℚ) * ((encodeImg i).img.height : ℚ)| ≤
      max (i.width : ℚ) (i.height : ℚ) := by
  have hs := thumbnailSize_spec i.width i.height hw hh hbig
  exact ⟨rfl, rfl, hs.1, hs.2.1, hs.2.2⟩

/-- Witness for C4: a 2048 by 1152 image is normalized to 1024 by 576. -/
theorem C4_normalizer_bounds_witness :
    (encodeImg ⟨2048, 1152, "P"⟩).format = "JPEG" ∧
    (encodeImg ⟨2048, 1152, "P"⟩).quality = 85 ∧
    (encodeImg ⟨2048, 1152, "P"⟩).img.width ≤ 1024 ∧
    (encodeImg ⟨2048, 1152, "P"⟩).img.height ≤ 1024 ∧
    |((encodeImg ⟨2048, 1152, "P"⟩).img.width : ℚ) * ((1152 : ℕ) : ℚ) -
        ((2048 : ℕ) : ℚ) * ((encodeImg ⟨2048, 1152, "P"⟩).img.height : ℚ)| ≤
      max ((2048 : ℕ) : ℚ) ((1152 : ℕ) : ℚ) :=
  C4_normalizer_bounds ⟨2048, 1152, "P"⟩ (by decide) (by decide)
    (Or.inl (by decide))

end QuestHelper
